import Mathlib

/-!
Verification development for the `unholy` resource-lifecycle manager
(`src/unholy/compose.py`).

The Python code is shallowly embedded:

* Python `str` values used as raw character sequences (scripts) are
  `List Char` (via `String.data` for literals); identifiers, label keys and
  label values stay `String`.
* Python `dict` is an association list `List (String × String)` together
  with `dictGet` (lookup, `d.get(k)` returning `None` as `Option`),
  `dictSet` (`d[k] = v`: replaces the value of an existing key in place,
  otherwise appends, as insertion-ordered CPython dicts do) and
  `dictUnion` (`d | e` / `d |= e`: left dict updated by every entry of the
  right one, right values winning).
* Exceptions are an explicit `PyExc` type; a fallible computation returns
  `Except PyExc α`.  `docker.errors.APIError` (the base class of every
  daemon-reported HTTP error, including `NotFound`, status 404, raised
  when removing an already-removed container) is `PyExc.apiError status`.
* The docker daemon is modelled by the list of volumes / containers it
  knows; a daemon mutation returns the new list.
-/

/-- Exceptions that can cross the boundaries modelled here.
`apiError status` stands for `docker.errors.APIError` with the given HTTP
status code (`docker.errors.NotFound`, raised when removing a container
that is already gone, is the subclass with status 404).
`attributeError` models Python's `AttributeError`, raised e.g. by
`None.get(...)` when a volume's `Labels` attribute is null.
`assertionError` models a failed `assert` statement.
`otherError` stands for any exception that is not a `docker.errors.APIError`
(connection failures, arbitrary exceptions raised by a session body, ...). -/
inductive PyExc where
  | apiError (status : Nat)
  | attributeError
  | assertionError
  | otherError (tag : String)
deriving DecidableEq, Repr

/-- `isinstance(e, docker.errors.APIError)`: the class test performed by the
`except docker.errors.APIError` clause in `bootstrap_spawn`. -/
def PyExc.isAPIError : PyExc → Bool
  | .apiError _ => true
  | _ => false

instance {ε α : Type} [DecidableEq ε] [DecidableEq α] : DecidableEq (Except ε α) := fun a b =>
  match a, b with
  | .error e, .error f =>
    if h : e = f then isTrue (by rw [h]) else isFalse (fun hc => by cases hc; exact h rfl)
  | .error _, .ok _ => isFalse (fun hc => by cases hc)
  | .ok _, .error _ => isFalse (fun hc => by cases hc)
  | .ok x, .ok y =>
    if h : x = y then isTrue (by rw [h]) else isFalse (fun hc => by cases hc; exact h rfl)

/-- Python `d.get(k)`: the value stored for `k`, or `None`. -/
def dictGet : List (String × String) → String → Option String
  | [], _ => none
  | kv :: rest, k => if kv.1 = k then some kv.2 else dictGet rest k

/-- Python `d[k] = v` on an insertion-ordered dict: if `k` is present its
value is replaced in place, otherwise `(k, v)` is appended. -/
def dictSet (d : List (String × String)) (k v : String) : List (String × String) :=
  if (dictGet d k).isSome then
    d.map (fun kv => if kv.1 = k then (kv.1, v) else kv)
  else
    d ++ [(k, v)]

/-- Python `d | e` (and the in-place `d |= e`): `d` updated with every entry
of `e` in order, values from `e` winning on key conflicts. -/
def dictUnion (d e : List (String × String)) : List (String × String) :=
  e.foldl (fun acc kv => dictSet acc kv.1 kv.2) d

/-- Python `repr(b)` for a `bool`. -/
def pyRepr (b : Bool) : String := if b then "True" else "False"

/-- Python `s.startswith(pre)` on character sequences. -/
def pyStartswith : List Char → List Char → Bool
  | _, [] => true
  | [], _ :: _ => false
  | c :: cs, p :: ps => c == p && pyStartswith cs ps

/- The compose label keys used by the claims
(`class Label(enum.StrEnum)` in `compose.py`). -/
namespace Label

def Project : String := "com.docker.compose.project"

def Service : String := "com.docker.compose.service"

def Volume : String := "com.docker.compose.volume"

def OneOff : String := "com.docker.compose.oneoff"

end Label

/-- `fix_script` (`compose.py` lines 332-335): prepend a default shell
interpreter directive when the script does not already begin with `#!`. -/
def fix_script (script : List Char) : List Char :=
  if pyStartswith script "#!".data then script
  else "#!/bin/sh\n".data ++ script

/-- One call to `inject_and_run` recorded during `devenv_create`:
the (normalized) script text, the working directory and the name passed. -/
structure ScriptExec where
  text : List Char
  cwd : String
  name : String
deriving DecidableEq, Repr

/-- The script loop of `devenv_create` (`compose.py` lines 322-328),
index threaded the way `enumerate` does it:
`for i, script in enumerate(scripts): if script: inject_and_run(cont,
fix_script(script), cwd='/project', name=f'unholyscript-{i}')`.
The returned list records the `inject_and_run` calls in execution order. -/
def devenv_script_loop : Nat → List (List Char) → List ScriptExec
  | _, [] => []
  | i, script :: rest =>
    if script = [] then devenv_script_loop (i + 1) rest
    else ⟨fix_script script, "/project", "unholyscript-" ++ toString i⟩ ::
      devenv_script_loop (i + 1) rest

/-- The sequence of script executions performed by `devenv_create scripts`
after the devenv container is started. -/
def devenv_run_scripts (scripts : List (List Char)) : List ScriptExec :=
  devenv_script_loop 0 scripts

/-- A docker volume as the daemon reports it.  `labels` models
`vol.attrs['Labels']`, which the daemon may report as null (`none`) or as a
(possibly empty) mapping (`some ls`). -/
structure Volume where
  name : String
  labels : Option (List (String × String))
deriving DecidableEq, Repr

/-- `Compose.volume_list` (`compose.py` lines 129-135), run to exhaustion:
`for vol in self.client.volumes.list(): if vol.attrs['Labels'].get(Label.Project)
== self.project_name: yield vol`.  When a volume's `Labels` is null, reaching
it raises `AttributeError` (`None` has no `.get`). -/
def volume_list : List Volume → String → Except PyExc (List Volume)
  | [], _ => .ok []
  | v :: rest, project_name =>
    match v.labels with
    | none => .error .attributeError
    | some ls =>
      match volume_list rest project_name with
      | .error e => .error e
      | .ok tail =>
        .ok (if dictGet ls Label.Project = some project_name then v :: tail else tail)

/-- `Compose.volume_create` (`compose.py` lines 137-148): creates (appends to
the daemon) a volume named `{project_name}_{name}` labelled
`{Project: project_name, Volume: name} | labels` (with `labels = labels or {}`).
Returns the created volume and the daemon's new volume list. -/
def volume_create (vols : List Volume) (project_name name : String)
    (labels : Option (List (String × String))) : Volume × List Volume :=
  let v : Volume :=
    ⟨project_name ++ "_" ++ name,
     some (dictUnion [(Label.Project, project_name), (Label.Volume, name)]
       (labels.getD []))⟩
  (v, vols ++ [v])

/-- `UnholyCompose.workspace_get` (`compose.py` lines 233-239) fused with the
`volume_list` generator it consumes: iterate the daemon's volumes in order,
raise `AttributeError` on a null-labels volume when it is reached, skip
volumes whose project label differs, and return the first yielded volume
whose volume label equals `project_volume_name`.  Because the generator is
lazy, iteration stops at the first match and later volumes are never
examined. -/
def workspace_get : List Volume → String → String → Except PyExc (Option Volume)
  | [], _, _ => .ok none
  | v :: rest, project_name, project_volume_name =>
    match v.labels with
    | none => .error .attributeError
    | some ls =>
      if dictGet ls Label.Project = some project_name then
        if dictGet ls Label.Volume = some project_volume_name then .ok (some v)
        else workspace_get rest project_name project_volume_name
      else workspace_get rest project_name project_volume_name

/-- `UnholyCompose.workspace_create` (`compose.py` lines 241-246):
`assert self.workspace_get() is None; return self.volume_create(...)`.
Returns the daemon's volume list after the call together with the outcome;
on any raise (failed assert, or an error out of `workspace_get`) the daemon
state is unchanged because `volume_create` was never reached. -/
def workspace_create (vols : List Volume) (project_name project_volume_name : String) :
    List Volume × Except PyExc Volume :=
  match workspace_get vols project_name project_volume_name with
  | .error e => (vols, .error e)
  | .ok (some _) => (vols, .error .assertionError)
  | .ok none =>
    let (v, vols') := volume_create vols project_name project_volume_name none
    (vols', .ok v)

/-- `UnholyCompose.workspace_delete` (`compose.py` lines 248-254): remove the
workspace volume if one exists, no-op otherwise. -/
def workspace_delete (vols : List Volume) (project_name project_volume_name : String) :
    List Volume × Except PyExc Unit :=
  match workspace_get vols project_name project_volume_name with
  | .error e => (vols, .error e)
  | .ok none => (vols, .ok ())
  | .ok (some v) => (vols.filter (fun u => u.name ≠ v.name), .ok ())

/-- A docker container as the daemon reports it.  `labels` models
`con.labels`, which the docker client library coerces to an (empty) mapping
when the daemon reports null. -/
structure Container where
  name : String
  labels : List (String × String)
deriving DecidableEq, Repr

/-- `Compose.container_list` (`compose.py` lines 169-175), run to exhaustion:
`for con in self.client.containers.list(all=True): if
con.labels.get(Label.Project) == self.project_name: yield con`. -/
def container_list : List Container → String → List Container
  | [], _ => []
  | c :: rest, project_name =>
    if dictGet c.labels Label.Project = some project_name then
      c :: container_list rest project_name
    else container_list rest project_name

/-- A `docker.types.Mount(target=..., source=..., type=...)` value. -/
structure Mnt where
  target : String
  source : String
  type : String
deriving DecidableEq, Repr

/-- The `'environment'` entry of `Compose._socket_mount_opts`
(`compose.py` lines 150-167). -/
def socket_opts_environment : List (String × String) :=
  [("DOCKER_HOST", "unix:///var/run/docker.sock")]

/-- The `'mounts'` entry of `Compose._socket_mount_opts`. -/
def socket_opts_mounts : List Mnt :=
  [⟨"/var/run/docker.sock", "/var/run/docker.sock", "bind"⟩]

/-- The container-creation request `container_create` sends to the daemon
(`self.client.containers.create(name=..., image=..., labels=...,
environment=..., mounts=..., **opts)`). -/
structure CreateRequest where
  name : String
  image : String
  labels : List (String × String)
  environment : Option (List (String × String))
  mounts : Option (List Mnt)
deriving DecidableEq, Repr

/-- What a call to `Compose.container_create` produces: the request sent to
the daemon, plus the post-call contents of the caller-owned `environment`
dict and `mounts` list.  In the Python source (`compose.py` lines 194-201)
`environment |= ...` and `mounts += ...` update the caller's objects in
place, so when the caller supplied them their post-call contents coincide
with what the request carries; when the caller passed `None` a fresh object
is used and the caller owns nothing (`none` here). -/
structure ContainerCreateResult where
  request : CreateRequest
  callerEnvAfter : Option (List (String × String))
  callerMountsAfter : Option (List Mnt)
deriving DecidableEq, Repr

/-- `Compose.container_create` (`compose.py` lines 177-211).
`default_labels = {Project: project_name, Service: service}`, extended with
`OneOff = repr(bool(one_off))` when `one_off` is given, then
`default_labels | labels` when caller labels are given.  With
`mount_docker_socket` the socket environment is merged into the caller's
environment (`|=`, socket values winning) and the socket mount is appended
to the caller's mounts (`+=`), both defaulting to fresh empty objects when
the caller passed `None`.  The container name is
`f"{self.project_name}-{service}-1"`. -/
def container_create (project_name service image : String)
    (one_off : Option Bool) (labels : Option (List (String × String)))
    (mount_docker_socket : Bool)
    (environment : Option (List (String × String)))
    (mounts : Option (List Mnt)) : ContainerCreateResult :=
  let default_labels := [(Label.Project, project_name), (Label.Service, service)]
  let default_labels :=
    match one_off with
    | some b => dictSet default_labels Label.OneOff (pyRepr b)
    | none => default_labels
  let labels' :=
    match labels with
    | some l => dictUnion default_labels l
    | none => default_labels
  if mount_docker_socket then
    let env' := dictUnion (environment.getD []) socket_opts_environment
    let mounts' := (mounts.getD []) ++ socket_opts_mounts
    { request := ⟨project_name ++ "-" ++ service ++ "-1", image, labels',
        some env', some mounts'⟩,
      callerEnvAfter := environment.map (fun _ => env'),
      callerMountsAfter := mounts.map (fun _ => mounts') }
  else
    { request := ⟨project_name ++ "-" ++ service ++ "-1", image, labels',
        environment, mounts⟩,
      callerEnvAfter := environment,
      callerMountsAfter := mounts }

/-- Result of one use of the bootstrap session body: the caller's work
either completes with a value or raises. -/
inductive Outcome (α : Type) where
  | ok (a : α)
  | raised (e : PyExc)
deriving DecidableEq, Repr

/-- Trace of one run of the `bootstrap_spawn` session after `cont.start()`
succeeded: whether `cont.stop()` and `cont.remove()` were invoked, and what
the session as a whole does (return the body's value, or raise). -/
structure SessionRun (α : Type) where
  stopCalled : Bool
  removeCalled : Bool
  outcome : Outcome α
deriving DecidableEq, Repr

/-- The `try/finally` of `UnholyCompose.bootstrap_spawn`
(`compose.py` lines 277-285) after the container has started:

    try:     yield cont            -- `body`
    finally: cont.stop()           -- outcome `stopResult`
             try: cont.remove()    -- outcome `removeResult`
             except docker.errors.APIError: pass

`stopResult` / `removeResult` are `none` when the daemon call succeeds and
`some e` when it raises `e`.  Python semantics: the `finally` block always
runs; an exception escaping the `finally` block replaces the body's
outcome; if `cont.stop()` raises, `cont.remove()` is never reached; a
`docker.errors.APIError` out of `cont.remove()` is swallowed and any other
exception out of it propagates. -/
def bootstrap_spawn_run {α : Type} (body : Outcome α)
    (stopResult removeResult : Option PyExc) : SessionRun α :=
  match stopResult with
  | some e => ⟨true, false, .raised e⟩
  | none =>
    match removeResult with
    | some e => if e.isAPIError then ⟨true, true, body⟩ else ⟨true, true, .raised e⟩
    | none => ⟨true, true, body⟩

/-- Whether a volume carries the project label of the given project:
the test `vol.attrs['Labels'].get(Label.Project) == self.project_name`
performed by `volume_list`, for a volume whose `Labels` is not null. -/
def volumeHasProject (v : Volume) (project_name : String) : Bool :=
  match v.labels with
  | none => false
  | some ls => dictGet ls Label.Project = some project_name

/-- A concrete daemon volume list: the project `demo` owns a workspace
volume, a different project `demo2` owns one too, and one volume carries an
empty label mapping. -/
def demoVolumes : List Volume :=
  [⟨"demo_workspace", some [(Label.Project, "demo"), (Label.Volume, "workspace")]⟩,
   ⟨"demo2_workspace", some [(Label.Project, "demo2"), (Label.Volume, "workspace")]⟩,
   ⟨"anon", some []⟩]

/-- A concrete daemon container list with differing project labels,
including one whose project label has the query `demo` as a proper
substring and an unlabelled one. -/
def demoContainers : List Container :=
  [⟨"demo-devenv-1", [(Label.Project, "demo"), (Label.Service, "devenv")]⟩,
   ⟨"demo2-devenv-1", [(Label.Project, "demo2"), (Label.Service, "devenv")]⟩,
   ⟨"plain", []⟩]

/-- A daemon volume list in which the `demo` workspace volume precedes a
volume whose `Labels` attribute is null. -/
def mixedVolumes : List Volume :=
  [⟨"demo_workspace", some [(Label.Project, "demo"), (Label.Volume, "workspace")]⟩,
   ⟨"broken", none⟩]

/-! Helper lemmas. -/

lemma pyStartswith_default_interp (s : List Char) :
    pyStartswith ("#!/bin/sh\n".data ++ s) "#!".data = true := rfl

lemma dictGet_map_set (d : List (String × String)) (k v : String) :
    (dictGet d k).isSome →
    dictGet (d.map (fun kv => if kv.1 = k then (kv.1, v) else kv)) k = some v := by
  induction d with
  | nil => simp [dictGet]
  | cons kv rest ih =>
    intro h
    by_cases hk : kv.1 = k
    · simp [dictGet, hk]
    · have h' : (dictGet rest k).isSome := by simpa [dictGet, hk] using h
      simpa [dictGet, hk] using ih h'

lemma dictGet_append_single (d : List (String × String)) (k v : String) :
    dictGet (d ++ [(k, v)]) k = if (dictGet d k).isSome then dictGet d k else some v := by
  induction d with
  | nil => simp [dictGet]
  | cons kv rest ih =>
    by_cases hk : kv.1 = k
    · simp [dictGet, hk]
    · simpa [dictGet, hk] using ih

lemma dictGet_dictSet_self (d : List (String × String)) (k v : String) :
    dictGet (dictSet d k v) k = some v := by
  unfold dictSet
  by_cases h : (dictGet d k).isSome
  · simpa [h] using dictGet_map_set d k v h
  · simp [h, dictGet_append_single]

lemma mem_dictSet_of_ne (d : List (String × String)) (k v : String)
    (kv : String × String) (hmem : kv ∈ d) (hne : kv.1 ≠ k) :
    kv ∈ dictSet d k v := by
  unfold dictSet
  split
  · have hfix : (fun p : String × String => if p.1 = k then (p.1, v) else p) kv = kv := by
      simp [hne]
    exact hfix ▸ List.mem_map_of_mem _ hmem
  · exact List.mem_append_left _ hmem

lemma dictUnion_single (d : List (String × String)) (k v : String) :
    dictUnion d [(k, v)] = dictSet d k v := rfl

lemma devenv_script_loop_eq (n : Nat) (scripts : List (List Char)) :
    devenv_script_loop n scripts =
      ((List.enumFrom n scripts).filter (fun is => is.2 ≠ [])).map
        (fun is => ⟨fix_script is.2, "/project", "unholyscript-" ++ toString is.1⟩) := by
  induction scripts generalizing n with
  | nil => simp [devenv_script_loop]
  | cons s rest ih =>
    by_cases h : s = []
    · subst h
      simp [devenv_script_loop, List.enumFrom, ih]
    · simp [devenv_script_loop, List.enumFrom, h, ih]

/-! Claim theorems. -/

/-- C10: `fix_script` is idempotent; its result always begins with `#!`;
it returns the script unchanged when it already begins with `#!` and
otherwise returns the script with `#!/bin/sh\n` prepended. -/
theorem C10_fix_script (s : List Char) :
    fix_script (fix_script s) = fix_script s
    ∧ pyStartswith (fix_script s) "#!".data = true
    ∧ (pyStartswith s "#!".data = true → fix_script s = s)
    ∧ (pyStartswith s "#!".data = false → fix_script s = "#!/bin/sh\n".data ++ s) := by
  by_cases h : pyStartswith s "#!".data = true
  · have hfs : fix_script s = s := by simp [fix_script, h]
    refine ⟨by rw [hfs, hfs], by rw [hfs]; exact h, fun _ => hfs, fun hf => ?_⟩
    rw [h] at hf
    exact absurd hf (by decide)
  · have hb : pyStartswith s "#!".data = false := by simpa using h
    have hfs : fix_script s = "#!/bin/sh\n".data ++ s := by simp [fix_script, hb]
    refine ⟨?_, ?_, fun ht => absurd ht h, fun _ => hfs⟩
    · rw [hfs]
      exact rfl
    · rw [hfs]
      exact pyStartswith_default_interp s

/-- Witness for C10 at the concrete script `echo a`, which lacks an
interpreter directive. -/
theorem C10_witness :
    fix_script (fix_script "echo a".data) = fix_script "echo a".data
    ∧ pyStartswith "echo a".data "#!".data = false
    ∧ fix_script "echo a".data = "#!/bin/sh\n".data ++ "echo a".data :=
  ⟨(C10_fix_script "echo a".data).1, by decide,
   (C10_fix_script "echo a".data).2.2.2 (by decide)⟩

/-- C3: the scripts given to devenv creation are executed in original order;
empty entries are skipped; each execution is named `unholyscript-{i}` with
`i` the entry's position in the original sequence (no renumbering after a
skip); a script without `#!` gets the default interpreter directive
prepended, one with `#!` runs unchanged; in particular, for
`["", "echo a", "#!/bin/bash\necho b"]` exactly two executions occur,
named `unholyscript-1` and `unholyscript-2`. -/
theorem C3_script_execution :
    (∀ scripts : List (List Char),
      devenv_run_scripts scripts =
        ((scripts.enum.filter (fun is => is.2 ≠ [])).map
          (fun is => ⟨fix_script is.2, "/project", "unholyscript-" ++ toString is.1⟩)))
    ∧ devenv_run_scripts ["".data, "echo a".data, "#!/bin/bash\necho b".data] =
        [⟨"#!/bin/sh\necho a".data, "/project", "unholyscript-1"⟩,
         ⟨"#!/bin/bash\necho b".data, "/project", "unholyscript-2"⟩] := by
  constructor
  · intro scripts
    exact devenv_script_loop_eq 0 scripts
  · decide

/-- C1 is refuted on the code: a removal failure `docker.errors.APIError`
with HTTP status 500 — a daemon failure that is not the already-removed
`NotFound` (status 404) case — is suppressed by the bootstrap session's
cleanup instead of propagating to the session's caller. -/
theorem C1_counterexample :
    (bootstrap_spawn_run (Outcome.ok (0 : Nat)) none (some (PyExc.apiError 500))).outcome
        = Outcome.ok (0 : Nat)
    ∧ PyExc.apiError 500 ≠ PyExc.apiError 404 := by decide

/-- C1 (amended): after stopping the container, every removal failure in the
`docker.errors.APIError` class — the class that contains the
already-(auto-)removed `NotFound` case, but also every other daemon-reported
removal error — is suppressed, and a removal failure outside that class
propagates to the session's caller. -/
theorem C1_amended {α : Type} (body : Outcome α) (e : PyExc) :
    (e.isAPIError = true →
      bootstrap_spawn_run body none (some e) = ⟨true, true, body⟩)
    ∧ (e.isAPIError = false →
      bootstrap_spawn_run body none (some e) = ⟨true, true, Outcome.raised e⟩) := by
  cases e <;> simp [bootstrap_spawn_run, PyExc.isAPIError]

/-- Witness for C1 (amended): an API error with status 409 is suppressed and
a non-API connection failure propagates. -/
theorem C1_witness :
    (PyExc.apiError 409).isAPIError = true
    ∧ bootstrap_spawn_run (Outcome.ok (1 : Nat)) none (some (PyExc.apiError 409))
        = ⟨true, true, Outcome.ok 1⟩
    ∧ (PyExc.otherError "conn").isAPIError = false
    ∧ bootstrap_spawn_run (Outcome.ok (1 : Nat)) none (some (PyExc.otherError "conn"))
        = ⟨true, true, Outcome.raised (PyExc.otherError "conn")⟩ :=
  ⟨by decide, (C1_amended (Outcome.ok 1) (PyExc.apiError 409)).1 (by decide),
   by decide, (C1_amended (Outcome.ok 1) (PyExc.otherError "conn")).2 (by decide)⟩

/-- C2: on every run of the bootstrap session after its container started,
`cont.stop()` is invoked on every exit path; and whenever the stop succeeds
and the removal either succeeds or fails with a (suppressed) docker API
error — in particular in the usual auto-remove race — `cont.remove()` is
invoked too and the body's outcome is the session's outcome: a normal
completion is returned as is, and an error raised by the caller's work
propagates unmodified. -/
theorem C2_bootstrap_cleanup {α : Type} (body : Outcome α)
    (stopResult removeResult : Option PyExc)
    (hstop : stopResult = none)
    (hremove : removeResult = none ∨ ∃ n, removeResult = some (PyExc.apiError n)) :
    (∀ sR rR : Option PyExc, (bootstrap_spawn_run body sR rR).stopCalled = true)
    ∧ (bootstrap_spawn_run body stopResult removeResult).removeCalled = true
    ∧ (bootstrap_spawn_run body stopResult removeResult).outcome = body := by
  subst hstop
  have hstops : ∀ sR rR : Option PyExc, (bootstrap_spawn_run body sR rR).stopCalled = true := by
    intro sR rR
    cases sR with
    | some e => rfl
    | none =>
      cases rR with
      | none => rfl
      | some e => cases e <;> rfl
  rcases hremove with h | ⟨n, h⟩ <;> subst h <;>
    exact ⟨hstops, rfl, rfl⟩

/-- Witness for C2: a body that raises a non-docker exception, a successful
stop and the usual `NotFound` on removal: the body's error is the session
outcome. -/
theorem C2_witness :
    (bootstrap_spawn_run (Outcome.raised (PyExc.otherError "boom") : Outcome Nat)
        none (some (PyExc.apiError 404))).removeCalled = true
    ∧ (bootstrap_spawn_run (Outcome.raised (PyExc.otherError "boom") : Outcome Nat)
        none (some (PyExc.apiError 404))).outcome
        = Outcome.raised (PyExc.otherError "boom") :=
  ⟨(C2_bootstrap_cleanup (Outcome.raised (PyExc.otherError "boom") : Outcome Nat)
      none (some (PyExc.apiError 404)) rfl (Or.inr ⟨404, rfl⟩)).2.1,
   (C2_bootstrap_cleanup (Outcome.raised (PyExc.otherError "boom") : Outcome Nat)
      none (some (PyExc.apiError 404)) rfl (Or.inr ⟨404, rfl⟩)).2.2⟩

lemma volume_list_eq_filter (vols : List Volume) (p : String)
    (h : ∀ v ∈ vols, v.labels ≠ none) :
    volume_list vols p = .ok (vols.filter (fun v => volumeHasProject v p)) := by
  induction vols with
  | nil => rfl
  | cons v rest ih =>
    obtain ⟨ls, hls⟩ : ∃ ls, v.labels = some ls := by
      cases hvl : v.labels with
      | none => exact absurd hvl (h v (List.mem_cons_self v rest))
      | some ls => exact ⟨ls, rfl⟩
    have ih' := ih (fun u hu => h u (List.mem_cons_of_mem v hu))
    by_cases hp : dictGet ls Label.Project = some p
    · simp [volume_list, hls, ih', volumeHasProject, hp]
    · simp [volume_list, hls, ih', volumeHasProject, hp]

lemma mem_container_list (cons : List Container) (p : String) (c : Container) :
    c ∈ container_list cons p ↔ c ∈ cons ∧ dictGet c.labels Label.Project = some p := by
  induction cons with
  | nil => simp [container_list]
  | cons d rest ih =>
    by_cases hd : dictGet d.labels Label.Project = some p
    · simp only [container_list, if_pos hd, List.mem_cons, ih]
      constructor
      · rintro (rfl | ⟨h1, h2⟩)
        · exact ⟨Or.inl rfl, hd⟩
        · exact ⟨Or.inr h1, h2⟩
      · rintro ⟨rfl | h1, h2⟩
        · exact Or.inl rfl
        · exact Or.inr ⟨h1, h2⟩
    · simp only [container_list, if_neg hd, List.mem_cons, ih]
      constructor
      · rintro ⟨h1, h2⟩
        exact ⟨Or.inr h1, h2⟩
      · rintro ⟨rfl | h1, h2⟩
        · exact absurd h2 hd
        · exact ⟨h1, h2⟩

lemma workspace_get_append_of_none (vols : List Volume) (p w : String) (v : Volume)
    (h : workspace_get vols p w = .ok none) :
    workspace_get (vols ++ [v]) p w = workspace_get [v] p w := by
  induction vols with
  | nil => rfl
  | cons u rest ih =>
    cases hu : u.labels with
    | none =>
      exfalso
      simp [workspace_get, hu] at h
    | some ls =>
      by_cases h1 : dictGet ls Label.Project = some p
      · by_cases h2 : dictGet ls Label.Volume = some w
        · exfalso
          simp [workspace_get, hu, h1, h2] at h
        · have hstep : ∀ l, workspace_get (u :: l) p w = workspace_get l p w := fun l => by
            simp [workspace_get, hu, h1, h2]
          rw [hstep rest] at h
          calc workspace_get ((u :: rest) ++ [v]) p w
              = workspace_get (rest ++ [v]) p w := hstep (rest ++ [v])
            _ = workspace_get [v] p w := ih h
      · have hstep : ∀ l, workspace_get (u :: l) p w = workspace_get l p w := fun l => by
          simp [workspace_get, hu, h1]
        rw [hstep rest] at h
        calc workspace_get ((u :: rest) ++ [v]) p w
            = workspace_get (rest ++ [v]) p w := hstep (rest ++ [v])
          _ = workspace_get [v] p w := ih h

lemma workspace_get_reaches_bad (pre : List Volume) (v : Volume) (rest : List Volume)
    (p w : String) (hv : v.labels = none)
    (hpre : ∀ u ∈ pre, ∀ ls, u.labels = some ls →
      ¬(dictGet ls Label.Project = some p ∧ dictGet ls Label.Volume = some w)) :
    workspace_get (pre ++ v :: rest) p w = .error .attributeError := by
  induction pre with
  | nil => simp [workspace_get, hv]
  | cons u pre' ih =>
    cases hu : u.labels with
    | none => simp [workspace_get, hu]
    | some ls =>
      have hnm := hpre u (List.mem_cons_self u pre') ls hu
      have ih' := ih (fun x hx ls' hls' => hpre x (List.mem_cons_of_mem u hx) ls' hls')
      by_cases h1 : dictGet ls Label.Project = some p
      · have h2 : ¬(dictGet ls Label.Volume = some w) := fun h2 => hnm ⟨h1, h2⟩
        simpa [workspace_get, hu, h1, h2] using ih'
      · simpa [workspace_get, hu, h1] using ih'

lemma volume_list_bad (vols : List Volume) (p : String) :
    (∃ v ∈ vols, v.labels = none) →
    volume_list vols p = .error .attributeError := by
  induction vols with
  | nil =>
    rintro ⟨v, hv, _⟩
    exact absurd hv (List.not_mem_nil v)
  | cons u rest ih =>
    rintro ⟨v, hv, hlab⟩
    rcases List.mem_cons.mp hv with rfl | hv'
    · simp [volume_list, hlab]
    · cases hu : u.labels with
      | none => simp [volume_list, hu]
      | some ls => simp [volume_list, hu, ih ⟨v, hv', hlab⟩]

/-- C4: for every project that already has a workspace volume, calling
`workspace_create` again fails the `assert self.workspace_get() is None`
precondition (a fatal `AssertionError`) and the daemon's volume list is
unchanged: no second volume is created. -/
theorem C4_workspace_create_existing (vols : List Volume) (p w : String) (v : Volume)
    (h : workspace_get vols p w = Except.ok (some v)) :
    workspace_create vols p w = (vols, Except.error PyExc.assertionError) := by
  simp [workspace_create, h]

/-- Witness for C4 on a concrete daemon state that already holds the
`demo` project's workspace volume. -/
theorem C4_witness :
    workspace_get demoVolumes "demo" "workspace"
        = Except.ok (some ⟨"demo_workspace",
            some [(Label.Project, "demo"), (Label.Volume, "workspace")]⟩)
    ∧ workspace_create demoVolumes "demo" "workspace"
        = (demoVolumes, Except.error PyExc.assertionError) :=
  ⟨by decide,
   C4_workspace_create_existing demoVolumes "demo" "workspace"
     ⟨"demo_workspace", some [(Label.Project, "demo"), (Label.Volume, "workspace")]⟩
     (by decide)⟩

/-- C5: for every project name `p` and configured workspace label `w`, when
no workspace volume exists, `workspace_create` creates a volume named
exactly `p_w` labelled `{project: p, volume: w}`, and an immediately
following `workspace_get` returns that same volume. -/
theorem C5_workspace_create_fresh (vols : List Volume) (p w : String)
    (h : workspace_get vols p w = Except.ok none) :
    ∃ v : Volume,
      workspace_create vols p w = (vols ++ [v], Except.ok v)
      ∧ v.name = p ++ "_" ++ w
      ∧ v.labels = some [(Label.Project, p), (Label.Volume, w)]
      ∧ workspace_get (vols ++ [v]) p w = Except.ok (some v) := by
  refine ⟨⟨p ++ "_" ++ w, some [(Label.Project, p), (Label.Volume, w)]⟩, ?_, rfl, rfl, ?_⟩
  · unfold workspace_create
    rw [h]
    rfl
  · rw [workspace_get_append_of_none vols p w _ h]
    have hP : dictGet [(Label.Project, p), (Label.Volume, w)] Label.Project = some p := by
      simp [dictGet]
    have hV : dictGet [(Label.Project, p), (Label.Volume, w)] Label.Volume = some w := by
      have hne : ¬(Label.Project = Label.Volume) := by decide
      simp [dictGet, hne]
    simp [workspace_get, hP, hV]

/-- Witness for C5 starting from an empty daemon. -/
theorem C5_witness :
    workspace_get [] "demo" "workspace" = Except.ok none
    ∧ ∃ v : Volume,
        workspace_create [] "demo" "workspace" = ([] ++ [v], Except.ok v)
        ∧ v.name = "demo" ++ "_" ++ "workspace"
        ∧ v.labels = some [(Label.Project, "demo"), (Label.Volume, "workspace")]
        ∧ workspace_get ([] ++ [v]) "demo" "workspace" = Except.ok (some v) :=
  ⟨rfl, C5_workspace_create_fresh [] "demo" "workspace" rfl⟩

/-- C6: on a daemon holding an arbitrary mixture of (labelled) volumes and
containers, `volume_list` and `container_list` yield exactly the resources
whose project label is string-equal to the queried project name: nothing
with a merely similar label is returned and no matching resource is
omitted. -/
theorem C6_discovery_exact (vols : List Volume) (cons : List Container) (p : String)
    (h : ∀ v ∈ vols, v.labels ≠ none) :
    (∃ out, volume_list vols p = Except.ok out
      ∧ (∀ v : Volume, v ∈ out ↔
          v ∈ vols ∧ ∃ ls, v.labels = some ls ∧ dictGet ls Label.Project = some p))
    ∧ (∀ c : Container, c ∈ container_list cons p ↔
        c ∈ cons ∧ dictGet c.labels Label.Project = some p) := by
  constructor
  · refine ⟨vols.filter (fun v => volumeHasProject v p), volume_list_eq_filter vols p h, ?_⟩
    intro v
    rw [List.mem_filter]
    constructor
    · rintro ⟨hmem, hhp⟩
      refine ⟨hmem, ?_⟩
      cases hvl : v.labels with
      | none => simp [volumeHasProject, hvl] at hhp
      | some ls =>
        refine ⟨ls, rfl, ?_⟩
        simpa [volumeHasProject, hvl] using hhp
    · rintro ⟨hmem, ls, hls, hget⟩
      exact ⟨hmem, by simp [volumeHasProject, hls, hget]⟩
  · intro c
    exact mem_container_list cons p c

/-- Witness for C6 on a concrete mixture in which a second project's label
(`demo2`) has the query (`demo`) as a proper prefix. -/
theorem C6_witness :
    (∀ v ∈ demoVolumes, v.labels ≠ none)
    ∧ ((∃ out, volume_list demoVolumes "demo" = Except.ok out
        ∧ (∀ v : Volume, v ∈ out ↔
            v ∈ demoVolumes ∧ ∃ ls, v.labels = some ls
              ∧ dictGet ls Label.Project = some "demo"))
      ∧ (∀ c : Container, c ∈ container_list demoContainers "demo" ↔
          c ∈ demoContainers ∧ dictGet c.labels Label.Project = some "demo")) :=
  ⟨by decide, C6_discovery_exact demoVolumes demoContainers "demo" (by decide)⟩

/-- C8 is refuted on the code: on a daemon state whose `demo` workspace
volume precedes a volume with a null `Labels` attribute, `workspace_get`
returns the workspace (the lazy `volume_list` generator is abandoned before
the null-labels volume is reached) and `workspace_delete` completes without
raising — so the null-labels volume does not make these operations raise. -/
theorem C8_counterexample :
    (∃ v ∈ mixedVolumes, v.labels = none)
    ∧ workspace_get mixedVolumes "demo" "workspace"
        = Except.ok (some ⟨"demo_workspace",
            some [(Label.Project, "demo"), (Label.Volume, "workspace")]⟩)
    ∧ workspace_delete mixedVolumes "demo" "workspace"
        = ([⟨"broken", none⟩], Except.ok ()) := by
  refine ⟨⟨⟨"broken", none⟩, by decide, rfl⟩, rfl, rfl⟩

/-- C8 (amended): a fully-consumed `volume_list` raises `AttributeError`
whenever any daemon volume's `Labels` is null; and `workspace_get` — with
it `workspace_create` and `workspace_delete` — raises `AttributeError`
exactly when iteration reaches the null-labels volume before any matching
workspace volume: in particular whenever no matching volume precedes the
null-labels one.  (A matching volume earlier in daemon order instead makes
these operations return normally, the null-labels volume never examined.) -/
theorem C8_amended :
    (∀ (vols : List Volume) (p : String),
      (∃ v ∈ vols, v.labels = none) →
        volume_list vols p = Except.error PyExc.attributeError)
    ∧ (∀ (pre : List Volume) (v : Volume) (rest : List Volume) (p w : String),
        v.labels = none →
        (∀ u ∈ pre, ∀ ls, u.labels = some ls →
          ¬(dictGet ls Label.Project = some p ∧ dictGet ls Label.Volume = some w)) →
        workspace_get (pre ++ v :: rest) p w = Except.error PyExc.attributeError
        ∧ workspace_create (pre ++ v :: rest) p w
            = (pre ++ v :: rest, Except.error PyExc.attributeError)
        ∧ workspace_delete (pre ++ v :: rest) p w
            = (pre ++ v :: rest, Except.error PyExc.attributeError)) := by
  constructor
  · intro vols p hbad
    exact volume_list_bad vols p hbad
  · intro pre v rest p w hv hpre
    have hget := workspace_get_reaches_bad pre v rest p w hv hpre
    exact ⟨hget, by simp [workspace_create, hget], by simp [workspace_delete, hget]⟩

/-- Witness for C8 (amended) on a daemon holding a single volume whose
`Labels` is null. -/
theorem C8_witness :
    volume_list [(⟨"broken", none⟩ : Volume)] "demo"
        = Except.error PyExc.attributeError
    ∧ workspace_get [(⟨"broken", none⟩ : Volume)] "demo" "workspace"
        = Except.error PyExc.attributeError
    ∧ workspace_create [(⟨"broken", none⟩ : Volume)] "demo" "workspace"
        = ([⟨"broken", none⟩], Except.error PyExc.attributeError) :=
  ⟨C8_amended.1 [⟨"broken", none⟩] "demo"
     ⟨⟨"broken", none⟩, List.mem_cons_self _ _, rfl⟩,
   (C8_amended.2 [] ⟨"broken", none⟩ [] "demo" "workspace" rfl
     (fun u hu => absurd hu (List.not_mem_nil u))).1,
   (C8_amended.2 [] ⟨"broken", none⟩ [] "demo" "workspace" rfl
     (fun u hu => absurd hu (List.not_mem_nil u))).2.1⟩

/-- C7 is refuted on the code: with daemon-socket passthrough enabled, a
caller-supplied environment entry for the passthrough key `DOCKER_HOST`
itself is overwritten by `environment |= {...}` and is no longer present in
the creation request. -/
theorem C7_counterexample :
    ("DOCKER_HOST", "tcp://example:2375")
        ∉ (((container_create "demo" "devenv" "img" none none true
            (some [("DOCKER_HOST", "tcp://example:2375")]) (some [])).request.environment).getD [])
    ∧ dictGet (((container_create "demo" "devenv" "img" none none true
          (some [("DOCKER_HOST", "tcp://example:2375")]) (some [])).request.environment).getD [])
        "DOCKER_HOST" = some "unix:///var/run/docker.sock" := by
  exact ⟨by decide, by decide⟩

/-- C7 (amended): every creation request made with daemon-socket passthrough
enabled carries the daemon-endpoint variable `DOCKER_HOST` pointing at the
local daemon socket and the bind mount targeting the in-container socket
path; all caller-supplied mounts are still present, and all caller-supplied
environment entries whose key differs from `DOCKER_HOST` are still present
(a caller-supplied value for `DOCKER_HOST` itself is overwritten). -/
theorem C7_amended (p s img : String) (one_off : Option Bool)
    (labels : Option (List (String × String)))
    (env : List (String × String)) (mounts : List Mnt) :
    dictGet (((container_create p s img one_off labels true
        (some env) (some mounts)).request.environment).getD [])
      "DOCKER_HOST" = some "unix:///var/run/docker.sock"
    ∧ (⟨"/var/run/docker.sock", "/var/run/docker.sock", "bind"⟩ : Mnt)
        ∈ (((container_create p s img one_off labels true
            (some env) (some mounts)).request.mounts).getD [])
    ∧ (∀ m ∈ mounts,
        m ∈ (((container_create p s img one_off labels true
            (some env) (some mounts)).request.mounts).getD []))
    ∧ (∀ kv ∈ env, kv.1 ≠ "DOCKER_HOST" →
        kv ∈ (((container_create p s img one_off labels true
            (some env) (some mounts)).request.environment).getD [])) := by
  exact ⟨dictGet_dictSet_self env "DOCKER_HOST" "unix:///var/run/docker.sock",
    List.mem_append_right mounts (by decide),
    fun m hm => List.mem_append_left socket_opts_mounts hm,
    fun kv hkv hne =>
      mem_dictSet_of_ne env "DOCKER_HOST" "unix:///var/run/docker.sock" kv hkv hne⟩

/-- Witness for C7 (amended) with a concrete caller environment and mount. -/
theorem C7_witness :
    dictGet (((container_create "demo" "devenv" "img" none none true
        (some [("PATH", "/bin")]) (some [⟨"/project", "demo_workspace", "volume"⟩])).request.environment).getD [])
      "DOCKER_HOST" = some "unix:///var/run/docker.sock"
    ∧ (⟨"/var/run/docker.sock", "/var/run/docker.sock", "bind"⟩ : Mnt)
        ∈ (((container_create "demo" "devenv" "img" none none true
            (some [("PATH", "/bin")]) (some [⟨"/project", "demo_workspace", "volume"⟩])).request.mounts).getD [])
    ∧ (⟨"/project", "demo_workspace", "volume"⟩ : Mnt)
        ∈ (((container_create "demo" "devenv" "img" none none true
            (some [("PATH", "/bin")]) (some [⟨"/project", "demo_workspace", "volume"⟩])).request.mounts).getD [])
    ∧ ("PATH", "/bin")
        ∈ (((container_create "demo" "devenv" "img" none none true
            (some [("PATH", "/bin")]) (some [⟨"/project", "demo_workspace", "volume"⟩])).request.environment).getD []) :=
  ⟨(C7_amended "demo" "devenv" "img" none none [("PATH", "/bin")]
      [⟨"/project", "demo_workspace", "volume"⟩]).1,
   (C7_amended "demo" "devenv" "img" none none [("PATH", "/bin")]
      [⟨"/project", "demo_workspace", "volume"⟩]).2.1,
   (C7_amended "demo" "devenv" "img" none none [("PATH", "/bin")]
      [⟨"/project", "demo_workspace", "volume"⟩]).2.2.1
     ⟨"/project", "demo_workspace", "volume"⟩ (by decide),
   (C7_amended "demo" "devenv" "img" none none [("PATH", "/bin")]
      [⟨"/project", "demo_workspace", "volume"⟩]).2.2.2
     ("PATH", "/bin") (by decide) (by decide)⟩

/-- C9: when `container_create` is called with `mount_docker_socket=True`
and the caller supplies an environment mapping and a mounts list, the
caller-owned objects are updated in place (`environment |= ...`,
`mounts += ...`): after the call the caller's environment mapping is its
old contents updated with the daemon-endpoint variable — `DOCKER_HOST` now
maps to the socket endpoint, overwriting any caller value for that key —
and the caller's mounts list is its old contents with the socket bind
mount appended. -/
theorem C9_caller_mutation (p s img : String) (one_off : Option Bool)
    (labels : Option (List (String × String)))
    (env : List (String × String)) (mounts : List Mnt) :
    (container_create p s img one_off labels true
        (some env) (some mounts)).callerEnvAfter
      = some (dictUnion env socket_opts_environment)
    ∧ dictGet (((container_create p s img one_off labels true
        (some env) (some mounts)).callerEnvAfter).getD []) "DOCKER_HOST"
      = some "unix:///var/run/docker.sock"
    ∧ (container_create p s img one_off labels true
        (some env) (some mounts)).callerMountsAfter
      = some (mounts ++ socket_opts_mounts) :=
  ⟨rfl, dictGet_dictSet_self env "DOCKER_HOST" "unix:///var/run/docker.sock", rfl⟩
